import Mathlib

/-!
Verification development for the lrc_chat realtime room-and-messaging server.

The repository holds two revisions of the same Node server:
* `src/server.mjs` (the current revision) — embedded below with `server…` names;
* `src/unnamed/part_000` (an earlier revision) — embedded with `p0…` names.

The persistent store (PostgreSQL `rooms` and `messages` tables) is embedded as an
explicit `DB` value; each SQL statement issued by the source is translated into a
pure function on `DB`.  Socket.io emits are recorded as `Emit` values carrying the
target (`socket.emit`, `io.to(room)`, `socket.to(room)`, `io.emit`) and payload.
-/

/-- A row of the `rooms` table: `(name PRIMARY KEY? — no schema ships with the
repository; the row shape is taken from the INSERT/SELECT statements)`. -/
structure Room where
  name : String
  rtype : String
  deriving DecidableEq

/-- A row of the `messages` table, as used by
`INSERT INTO messages (room_name, message, sender, type)`; `created_at` is the
server-assigned timestamp, modelled as a monotonically increasing counter. -/
structure MsgRow where
  room_name : String
  sender : String
  message : String
  mtype : String
  created_at : Nat
  deriving DecidableEq

/-- The persistent store: the two tables plus the timestamp counter used to
assign `created_at` on insertion. -/
structure DB where
  rooms : List Room
  messages : List MsgRow
  nextTs : Nat
  deriving DecidableEq

/-- `getRoomsFromDB(type = null)`: `SELECT name FROM rooms [WHERE type = $1]`. -/
def getRoomsFromDB (db : DB) (type? : Option String) : List String :=
  match type? with
  | none => db.rooms.map (fun r => r.name)
  | some t => (db.rooms.filter (fun r => r.rtype == t)).map (fun r => r.name)

/-- `getRoomByName(roomName)`: `SELECT * FROM rooms WHERE name = $1`, returning
`result.rows[0]` (the first matching row, or nothing). -/
def getRoomByName (db : DB) (roomName : String) : Option Room :=
  (db.rooms.filter (fun r => r.name == roomName)).head?

/-- The existence check inside `createRoomInDB`:
`checkRes.rows.length > 0` for `SELECT * FROM rooms WHERE name = $1`. -/
def checkRoomExists (db : DB) (name : String) : Bool :=
  decide (0 < (db.rooms.filter (fun r => r.name == name)).length)

/-- `INSERT INTO rooms (name, type) VALUES ($1, $2)` — appends a row; the
repository ships no schema, so no uniqueness constraint is modelled beyond
what the queries themselves enforce. -/
def insertRoom (db : DB) (name rtype : String) : DB :=
  { db with rooms := db.rooms ++ [⟨name, rtype⟩] }

/-- `createRoomInDB(newRoom, type)` from `src/server.mjs`: guard against a falsy
name (for strings, the empty string), then check-then-insert.  Returns the room
name on success, `null` (here `none`) when the room already exists or on error. -/
def createRoomInDB (db : DB) (newRoom rtype : String) : Option String × DB :=
  if newRoom = "" then (none, db)
  else if checkRoomExists db newRoom then (none, db)
  else (some newRoom, insertRoom db newRoom rtype)

/-- `createRoomInDB(newRoom, type)` from `src/unnamed/part_000`: the same
check-then-insert, without the falsy-name guard. -/
def p0_createRoomInDB (db : DB) (newRoom rtype : String) : Option String × DB :=
  if checkRoomExists db newRoom then (none, db)
  else (some newRoom, insertRoom db newRoom rtype)

/-- `saveMessageToDatabase(room, message, sender, type)`:
`INSERT INTO messages (room_name, message, sender, type) VALUES ($1,$2,$3,$4)`;
`created_at` is assigned by the store. -/
def saveMessageToDatabase (db : DB) (room message sender mtype : String) : DB :=
  { db with
      messages := db.messages ++ [⟨room, sender, message, mtype, db.nextTs⟩],
      nextTs := db.nextTs + 1 }

/-- A row of the history result set:
`SELECT sender, message, created_at FROM messages WHERE room_name = $1`. -/
structure HistRow where
  sender : String
  message : String
  created_at : Nat
  deriving DecidableEq

/-- Semantics of the history query when it executes:
`SELECT sender, message, created_at FROM messages WHERE room_name = $1
 ORDER BY created_at ASC` (a stable sort on `created_at`). -/
def selectMessagesOrdered (db : DB) (roomName : String) : List HistRow :=
  List.insertionSort (fun a b => a.created_at ≤ b.created_at)
    ((db.messages.filter (fun m => m.room_name == roomName)).map
      (fun m => (⟨m.sender, m.message, m.created_at⟩ : HistRow)))

/-- The store rejects an extended-protocol bind whose supplied parameter count
differs from the prepared statement's placeholder count (PostgreSQL:
"bind message supplies N parameters, but prepared statement requires M"). -/
def bindOk (placeholders params : Nat) : Bool :=
  placeholders == params

/-- `getMessagesFromDB(roomName, limit = 50, offset = 0)` from `src/server.mjs`:
the query text holds exactly one placeholder (`$1`) but three parameters
`[roomName, limit, offset]` are bound, so the store rejects the call and the
`catch` branch returns `[]`. -/
def getMessagesFromDB (db : DB) (roomName : String) (limit offset : Nat) : List HistRow :=
  if bindOk 1 3 then selectMessagesOrdered db roomName else []

/-- `getMessagesFromDB(roomName)` from `src/unnamed/part_000`: one placeholder,
one bound parameter — the query executes. -/
def p0_getMessagesFromDB (db : DB) (roomName : String) : List HistRow :=
  if bindOk 1 1 then selectMessagesOrdered db roomName else []

/-- `DELETE FROM messages WHERE room_name = $1`. -/
def deleteMessagesFromDB (db : DB) (room : String) : DB :=
  { db with messages := db.messages.filter (fun m => !(m.room_name == room)) }

/-- `DELETE FROM rooms WHERE name = $1`. -/
def deleteRoomFromDB (db : DB) (room : String) : DB :=
  { db with rooms := db.rooms.filter (fun r => !(r.name == room)) }

/-- Modelled from the spec: the Membership Manager is realized by the socket.io
room adapter, which is a dependency, not part of this repository's source.  Per
the spec, membership is an ephemeral connection↔room relation; `join` is
idempotent (a set insert) and `leave` removes the pair. -/
abbrev Memb := List (String × String)

/-- Modelled from the spec: `socket.join(room)` — idempotent set insert. -/
def mjoin (mem : Memb) (c r : String) : Memb :=
  if (c, r) ∈ mem then mem else mem ++ [(c, r)]

/-- Modelled from the spec: `socket.leave(room)` — removes the pair; leaving a
room not joined leaves the relation unchanged. -/
def mleave (mem : Memb) (c r : String) : Memb :=
  mem.filter (fun p => !(p == (c, r)))

/-- Membership test on the modelled relation. -/
def isMember (mem : Memb) (c r : String) : Bool :=
  decide ((c, r) ∈ mem)

/-- The connections a socket.io emit is addressed to. -/
inductive Target
  | one (sid : String)
  | toRoom (room : String)
  | toRoomExcept (room sid : String)
  | allConns
  deriving DecidableEq

/-- Event payloads appearing in the two revisions of the server. -/
inductive Payload
  | createRoomResponse (success : Bool) (room : Option String) (error : Option String)
  | availableRooms (rooms : List String)
  | joinRoomError (error : String)
  | user_joined (msg : String)
  | messageHistory (msgs : List HistRow) (room : String)
  | newMessage (sender message : String)
  | newMessageStr (message : String)
  | gameMessage (sender message : String)
  | user_left (msg : String)
  | room_removed (msg : String)
  | room_removed_error (msg : String)
  deriving DecidableEq

/-- One emit: `socket.emit` is `Target.one sender`, `io.to(room).emit` is
`Target.toRoom`, `socket.to(room).emit` is `Target.toRoomExcept`, and `io.emit`
is `Target.allConns`. -/
structure Emit where
  target : Target
  payload : Payload
  deriving DecidableEq

/-- The members of a room, per the modelled membership relation. -/
def membersOf (mem : Memb) (room : String) : List String :=
  (mem.filter (fun p => p.2 == room)).map (fun p => p.1)

/-- The connections that receive an emit, given the membership relation in force
when the emit happens and the list of all connected client ids. -/
def recipients (mem : Memb) (conns : List String) : Target → List String
  | Target.one sid => [sid]
  | Target.toRoom room => membersOf mem room
  | Target.toRoomExcept room sid => (membersOf mem room).filter (fun c => !(c == sid))
  | Target.allConns => conns

/-- JS strict equality (`===`) between a boolean and a number: operands of
different runtime types are never strictly equal, so the comparison is
constantly `false` whatever the operand values are. -/
def jsStrictEqBoolNum (b : Bool) (n : Nat) : Bool :=
  false

/-- The `createGameRoom` handler of `src/server.mjs`: create the game room
(`AlreadyExists` reported on `null`), then best-effort create the companion
chat room named `<name>-chat` (result ignored), join both rooms, emit the
success response, and broadcast `availableRooms` with `getRoomsFromDB()`
(no type filter) to all connections. -/
def serverCreateGameRoom (db : DB) (mem : Memb) (s roomName : String) :
    DB × Memb × List Emit :=
  match createRoomInDB db roomName "game" with
  | (none, db1) =>
      (db1, mem,
        [⟨Target.one s, Payload.createRoomResponse false none (some "Room already exists!")⟩])
  | (some _, db1) =>
      let chatRoomName := roomName ++ "-chat"
      let (_, db2) := createRoomInDB db1 chatRoomName "chat"
      let mem1 := mjoin mem s roomName
      let mem2 := mjoin mem1 s chatRoomName
      (db2, mem2,
        [⟨Target.one s, Payload.createRoomResponse true (some roomName) none⟩,
         ⟨Target.allConns, Payload.availableRooms (getRoomsFromDB db2 none)⟩])

/-- The `joinGameRoom` handler of `src/server.mjs`.  Its guard is
`if (!roomRes.rows.length === 0)`: `!rows.length` is the boolean
`rows.length == 0`, which is then strictly compared (`===`) with the number
`0`, so the guard is constantly false and the error branch is dead code; the
socket always joins and `user_joined` is always broadcast. -/
def serverJoinGameRoom (db : DB) (mem : Memb) (s roomName userName : String) :
    DB × Memb × List Emit :=
  let rows := db.rooms.filter (fun r => r.name == roomName && r.rtype == "game")
  if jsStrictEqBoolNum (decide (rows.length = 0)) 0 then
    (db, mem, [⟨Target.one s, Payload.joinRoomError "Game room not found!"⟩])
  else
    (db, mjoin mem s roomName,
      [⟨Target.toRoom roomName, Payload.user_joined (userName ++ " has joined the game!")⟩])

/-- The `joinGameRoom` handler of `src/unnamed/part_000`, whose guard
`if (!room.rows.length)` is the intended emptiness test. -/
def p0JoinGameRoom (db : DB) (mem : Memb) (s roomName userName : String) :
    DB × Memb × List Emit :=
  let rows := db.rooms.filter (fun r => r.name == roomName && r.rtype == "game")
  if rows.length = 0 then
    (db, mem, [⟨Target.one s, Payload.joinRoomError "Game room not found!"⟩])
  else
    (db, mjoin mem s roomName,
      [⟨Target.toRoom roomName, Payload.user_joined (userName ++ " has joined the game!")⟩])

/-- The active `createRoom` handler of `src/server.mjs`: reject falsy name or
type, reject when `getRoomByName` finds a row, then `createRoomInDB`; on
success emit the response and broadcast `availableRooms` with
`getRoomsFromDB()` (all rooms, per the handler's comment "Fetch all rooms").
The handler never calls `socket.join`. -/
def serverCreateRoom (db : DB) (mem : Memb) (s name rtype : String) :
    DB × Memb × List Emit :=
  if name = "" ∨ rtype = "" then
    (db, mem,
      [⟨Target.one s, Payload.createRoomResponse false none (some "Room name and type are required!")⟩])
  else
    match getRoomByName db name with
    | some _ =>
        (db, mem, [⟨Target.one s, Payload.createRoomResponse false none (some "Room already exists")⟩])
    | none =>
        match createRoomInDB db name rtype with
        | (none, db1) =>
            (db1, mem, [⟨Target.one s, Payload.createRoomResponse false none (some "Error creating room")⟩])
        | (some _, db1) =>
            (db1, mem,
              [⟨Target.one s, Payload.createRoomResponse true (some name) none⟩,
               ⟨Target.allConns, Payload.availableRooms (getRoomsFromDB db1 none)⟩])

/-- The `createRoom` handler of `src/unnamed/part_000`: check-then-insert via
`createRoomInDB(newRoom, 'chat')`, auto-join the creator, and broadcast the
chat-filtered room list. -/
def p0CreateRoom (db : DB) (mem : Memb) (s newRoom : String) :
    DB × Memb × List Emit :=
  match p0_createRoomInDB db newRoom "chat" with
  | (none, db1) =>
      (db1, mem, [⟨Target.one s, Payload.createRoomResponse false none (some "Room already exists")⟩])
  | (some _, db1) =>
      (db1, mjoin mem s newRoom,
        [⟨Target.one s, Payload.createRoomResponse true (some newRoom) none⟩,
         ⟨Target.allConns, Payload.availableRooms (getRoomsFromDB db1 (some "chat"))⟩])

/-- The `join-room` handler of `src/server.mjs`: if no chat room of that name
exists, emit `joinRoomError`; otherwise join, send the joiner
`messageHistory` (via the revision's broken `getMessagesFromDB`), and
broadcast `user_joined` to the room. -/
def serverJoinRoom (db : DB) (mem : Memb) (s room userName : String) :
    DB × Memb × List Emit :=
  let rows := db.rooms.filter (fun r => r.name == room && r.rtype == "chat")
  if rows.length = 0 then
    (db, mem, [⟨Target.one s, Payload.joinRoomError "Chat room does not exist!"⟩])
  else
    let mem1 := mjoin mem s room
    (db, mem1,
      [⟨Target.one s, Payload.messageHistory (getMessagesFromDB db room 50 0) room⟩,
       ⟨Target.toRoom room, Payload.user_joined (userName ++ " has joined the room: " ++ room)⟩])

/-- The `message` handler of `src/server.mjs`: read `rows[0].type` (when no row
exists the property access throws and the catch only logs), ignore rooms whose
stored type is not `chat`, otherwise persist as a chat message and broadcast
`newMessage` to the room. -/
def serverMessage (db : DB) (mem : Memb) (s room message sender : String) :
    DB × Memb × List Emit :=
  match (db.rooms.filter (fun r => r.name == room)).head? with
  | none => (db, mem, [])
  | some r0 =>
      if r0.rtype ≠ "chat" then (db, mem, [])
      else
        (saveMessageToDatabase db room message sender "chat", mem,
          [⟨Target.toRoom room, Payload.newMessage sender message⟩])

/-- The `gameMessage` handler of `src/server.mjs`: read `rows[0].type` (absent
room throws, caught and logged), ignore rooms whose stored type is not `game`,
otherwise relay `gameMessage` to the room excluding the sender.  Game messages
are never persisted. -/
def serverGameMessage (db : DB) (mem : Memb) (s room message sender : String) :
    DB × Memb × List Emit :=
  match (db.rooms.filter (fun r => r.name == room)).head? with
  | none => (db, mem, [])
  | some r0 =>
      if r0.rtype ≠ "game" then (db, mem, [])
      else (db, mem, [⟨Target.toRoomExcept room s, Payload.gameMessage sender message⟩])

/-- The `gameMessage` handler of `src/unnamed/part_000`: no room lookup and no
type check at all — the message is relayed to the room (excluding the sender)
whatever the room's stored type is. -/
def p0GameMessage (db : DB) (mem : Memb) (s room message : String) :
    DB × Memb × List Emit :=
  (db, mem, [⟨Target.toRoomExcept room s, Payload.newMessageStr message⟩])

/-- The `leave-room` handler (identical in both revisions): `socket.leave(room)`
then `socket.to(room).emit('user_left', …)` — the broadcast is unconditional,
whether or not the socket was a member. -/
def serverLeaveRoom (db : DB) (mem : Memb) (s room userName : String) :
    DB × Memb × List Emit :=
  (db, mleave mem s room,
    [⟨Target.toRoomExcept room s, Payload.user_left (userName ++ " has left the room")⟩])

/-- A store mutation performed by the `removeRoom` handler. -/
inductive StoreOp
  | deleteMessages (room : String)
  | deleteRoom (room : String)
  deriving DecidableEq

/-- One step of the `removeRoom` handler's observable trace: an emit or a
completed store deletion, in program order. -/
inductive Act
  | emit (e : Emit)
  | store (op : StoreOp)
  deriving DecidableEq

/-- The `removeRoom` handler of `src/server.mjs`, with the two store deletions
allowed to fail (`failDeleteMessages`, `failDeleteRoom` pick the first failing
call; a failure raises, and the catch emits `room_removed_error`).  Program
order: announce `room_removed` to the room, delete the room's messages, delete
the room row, broadcast the updated (unfiltered) room list. -/
def serverRemoveRoom (db : DB) (roomToRemove : String)
    (failDeleteMessages failDeleteRoom : Bool) : DB × List Act :=
  let a0 : Act := Act.emit ⟨Target.toRoom roomToRemove,
    Payload.room_removed ("Room \"" ++ roomToRemove ++ "\" has been removed.")⟩
  let aerr : Act := Act.emit ⟨Target.toRoom roomToRemove,
    Payload.room_removed_error "An error occurred while deleting the room."⟩
  if failDeleteMessages then
    (db, [a0, aerr])
  else
    let db1 := deleteMessagesFromDB db roomToRemove
    if failDeleteRoom then
      (db1, [a0, Act.store (StoreOp.deleteMessages roomToRemove), aerr])
    else
      let db2 := deleteRoomFromDB db1 roomToRemove
      (db2,
        [a0, Act.store (StoreOp.deleteMessages roomToRemove),
         Act.store (StoreOp.deleteRoom roomToRemove),
         Act.emit ⟨Target.allConns, Payload.availableRooms (getRoomsFromDB db2 none)⟩])

/-- One in-flight `createRoomInDB` call, split at its await point: the
`SELECT` (check) and the `INSERT` are separate store round-trips, and another
call may run between them. -/
inductive CreateCall
  | toCheck
  | toInsert
  | done (result : Option String)
  deriving DecidableEq

/-- One atomic store round-trip of an in-flight `createRoomInDB` call
(`src/server.mjs` version, with the falsy-name guard). -/
def createStep (db : DB) (c : CreateCall) (name rtype : String) : DB × CreateCall :=
  match c with
  | CreateCall.toCheck =>
      if name = "" then (db, CreateCall.done none)
      else if checkRoomExists db name then (db, CreateCall.done none)
      else (db, CreateCall.toInsert)
  | CreateCall.toInsert => (insertRoom db name rtype, CreateCall.done (some name))
  | CreateCall.done r => (db, CreateCall.done r)

/-- Two concurrent `createRoomInDB(name, type)` calls interleaved by a
schedule: `false` steps call A, `true` steps call B. -/
def runTwoCreates (db : DB) (a b : CreateCall) (name rtype : String) :
    List Bool → DB × CreateCall × CreateCall
  | [] => (db, a, b)
  | false :: rest =>
      let s := createStep db a name rtype
      runTwoCreates s.1 s.2 b name rtype rest
  | true :: rest =>
      let s := createStep db b name rtype
      runTwoCreates s.1 a s.2 name rtype rest

/-- The empty store. -/
def db0 : DB := ⟨[], [], 0⟩

/-- A store holding one chat room `lobby` with one persisted message. -/
def dbLobby : DB := ⟨[⟨"lobby", "chat"⟩], [⟨"lobby", "alice", "hi", "chat", 0⟩], 1⟩

/-- A store holding one game room `g1` and nothing else. -/
def dbG : DB := ⟨[⟨"g1", "game"⟩], [], 0⟩

/-! ## Helper lemmas -/

/-- After inserting a room row with a given name, the existence check for that
name succeeds. -/
theorem checkRoomExists_insert_self (db : DB) (name rtype : String) :
    checkRoomExists (insertRoom db name rtype) name = true := by
  simp [checkRoomExists, insertRoom, List.filter_append]

/-- When the existence check fails, the `rooms` table holds no row of that name. -/
theorem filter_name_nil_of_not_exists (db : DB) (name : String)
    (h : checkRoomExists db name = false) :
    db.rooms.filter (fun r => r.name == name) = [] := by
  unfold checkRoomExists at h
  simp only [decide_eq_false_iff_not, Nat.not_lt, Nat.le_zero] at h
  exact List.length_eq_zero.mp h

/-- When `getRoomByName` finds no row, the existence check fails as well (the
two run the same `SELECT`). -/
theorem checkRoomExists_false_of_getRoomByName_none (db : DB) (name : String)
    (h : getRoomByName db name = none) : checkRoomExists db name = false := by
  unfold getRoomByName at h
  rw [List.head?_eq_none_iff] at h
  unfold checkRoomExists
  simp [h]

/-- Deleting the rows of a name that is absent from the `rooms` table leaves
the table unchanged. -/
theorem filter_ne_self_of_not_exists (db : DB) (name : String)
    (h : checkRoomExists db name = false) :
    db.rooms.filter (fun r => !(r.name == name)) = db.rooms := by
  have h2 := filter_name_nil_of_not_exists db name h
  rw [List.filter_eq_nil_iff] at h2
  apply List.filter_eq_self.mpr
  intro a ha
  have := h2 a ha
  simp only [Bool.not_eq_true] at this
  simp [this]

/-- Leaving a room the connection is not a member of leaves the membership
relation unchanged. -/
theorem mleave_of_not_member (mem : Memb) (c r : String)
    (h : isMember mem c r = false) : mleave mem c r = mem := by
  unfold isMember at h
  rw [decide_eq_false_iff_not] at h
  apply List.filter_eq_self.mpr
  intro p hp
  have hne : p ≠ (c, r) := by
    intro hEq
    exact h (hEq ▸ hp)
  simp [hne]

/-- After `mleave`, the connection is not a member of the room. -/
theorem isMember_mleave_self (mem : Memb) (c r : String) :
    isMember (mleave mem c r) c r = false := by
  unfold isMember mleave
  rw [decide_eq_false_iff_not]
  intro hmem
  have := (List.mem_filter.mp hmem).2
  simp at this

/-- Running one `createRoomInDB` call's two store round-trips back to back is
exactly the `createRoomInDB` function: the step machine is the function split
at its await point. -/
theorem createStep_run_eq (db : DB) (name rtype : String) :
    (let s1 := createStep db CreateCall.toCheck name rtype
     let s2 := createStep s1.1 s1.2 name rtype
     (s2.1, s2.2)) =
      ((createRoomInDB db name rtype).2, CreateCall.done (createRoomInDB db name rtype).1) := by
  by_cases h : name = "" <;> by_cases h2 : checkRoomExists db name <;>
    simp [createStep, createRoomInDB, h, h2]

/-! ## Claim C1 — concurrent room creation -/

/-- Claim C1, counterexample: `createRoomInDB` is a non-atomic check-then-insert;
under the interleaving check(A), check(B), insert(A), insert(B) of two
concurrent `createRoomInDB("lobby", "chat")` calls on an empty store, BOTH
calls succeed (both return the room name) and the `rooms` table ends up with
two rows named `lobby` — refuting "it is never the case that two succeed". -/
theorem createRoomInDB_race_both_succeed :
    (runTwoCreates db0 CreateCall.toCheck CreateCall.toCheck "lobby" "chat"
        [false, true, false, true]).2.1 = CreateCall.done (some "lobby") ∧
    (runTwoCreates db0 CreateCall.toCheck CreateCall.toCheck "lobby" "chat"
        [false, true, false, true]).2.2 = CreateCall.done (some "lobby") ∧
    ((runTwoCreates db0 CreateCall.toCheck CreateCall.toCheck "lobby" "chat"
        [false, true, false, true]).1.rooms.filter (fun r => r.name == "lobby")).length = 2 := by
  decide

/-- Claim C1, amended: when the two `createRoomInDB` calls run serially (each
call's check and insert complete before the other call starts), exactly one
succeeds and the other observes the existing row and returns `null`
(`AlreadyExists`). -/
theorem createRoomInDB_serialized_unique (db : DB) (name rtype : String)
    (h1 : ¬ name = "") (h2 : checkRoomExists db name = false) :
    (runTwoCreates db CreateCall.toCheck CreateCall.toCheck name rtype
        [false, false, true, true]).2.1 = CreateCall.done (some name) ∧
    (runTwoCreates db CreateCall.toCheck CreateCall.toCheck name rtype
        [false, false, true, true]).2.2 = CreateCall.done none := by
  simp [runTwoCreates, createStep, h1, h2, checkRoomExists_insert_self]

/-- Witness for `createRoomInDB_serialized_unique` at the empty store. -/
theorem createRoomInDB_serialized_unique_witness :
    (runTwoCreates db0 CreateCall.toCheck CreateCall.toCheck "lobby" "chat"
        [false, false, true, true]).2.1 = CreateCall.done (some "lobby") ∧
    (runTwoCreates db0 CreateCall.toCheck CreateCall.toCheck "lobby" "chat"
        [false, false, true, true]).2.2 = CreateCall.done none :=
  createRoomInDB_serialized_unique db0 "lobby" "chat" (by decide) (by decide)

/-! ## Claim C2 — joinGameRoom on a missing room -/

/-- Claim C2: the guard of the `joinGameRoom` handler in `src/server.mjs` is
`(!roomRes.rows.length === 0)`, which is constantly false; evaluating the
handler at a store with no rooms at all, the initiating socket still JOINS the
nonexistent room `ghost`, no `joinRoomError` is emitted, `user_joined` is
broadcast to the room, and the joiner itself receives it — contradicting the
claim (and the intended behavior, which the earlier revision
`src/unnamed/part_000` implements: same input there yields exactly the
`joinRoomError` emit and no join). -/
theorem joinGameRoom_missing_room_still_joins :
    isMember (serverJoinGameRoom db0 [] "s1" "ghost" "alice").2.1 "s1" "ghost" = true ∧
    (serverJoinGameRoom db0 [] "s1" "ghost" "alice").2.2 =
      [⟨Target.toRoom "ghost", Payload.user_joined "alice has joined the game!"⟩] ∧
    recipients (serverJoinGameRoom db0 [] "s1" "ghost" "alice").2.1 ["s1"]
        (Target.toRoom "ghost") = ["s1"] ∧
    p0JoinGameRoom db0 [] "s1" "ghost" "alice" =
      (db0, [], [⟨Target.one "s1", Payload.joinRoomError "Game room not found!"⟩]) := by
  decide

/-! ## Claim C3 — message history on join-room -/

/-- Claim C3: in `src/server.mjs`, `getMessagesFromDB` binds three parameters
to a one-placeholder query, so the store call fails and the joiner always
receives an EMPTY `messageHistory`.  At a store holding chat room `lobby`
with one persisted message, the `join-room` handler emits
`messageHistory [] "lobby"` although the room's persisted, ordered history is
nonempty — contradicting the claim. -/
theorem joinRoom_history_always_empty :
    (serverJoinRoom dbLobby [] "s1" "lobby" "bob").2.2.head? =
      some ⟨Target.one "s1", Payload.messageHistory [] "lobby"⟩ ∧
    selectMessagesOrdered dbLobby "lobby" = [⟨"alice", "hi", 0⟩] ∧
    getMessagesFromDB dbLobby "lobby" 50 0 = [] := by
  decide

/-! ## Claim C4 — chat room creation effects -/

/-- Claim C4, counterexample: the active `createRoom` handler of
`src/server.mjs` never calls `socket.join`, and broadcasts `getRoomsFromDB()`
with no type filter.  Creating chat room `lobby` on a store already holding
game room `g1`: the creator is NOT a member of `lobby` afterwards, and the
`availableRooms` broadcast carries `["g1", "lobby"]` — the list of ALL rooms —
while the updated chat-room list is `["lobby"]`. -/
theorem createRoom_no_autojoin_counterexample :
    isMember (serverCreateRoom dbG [] "s1" "lobby" "chat").2.1 "s1" "lobby" = false ∧
    (serverCreateRoom dbG [] "s1" "lobby" "chat").2.2 =
      [⟨Target.one "s1", Payload.createRoomResponse true (some "lobby") none⟩,
       ⟨Target.allConns, Payload.availableRooms ["g1", "lobby"]⟩] ∧
    getRoomsFromDB (serverCreateRoom dbG [] "s1" "lobby" "chat").1 (some "chat") =
      ["lobby"] := by
  decide

/-- Claim C4, amended: for every successful `createRoom` in the current handler
(`src/server.mjs`), the creator receives the success response but is NOT
joined to the new room (membership is untouched), and all clients receive an
`availableRooms` broadcast of the updated list of ALL rooms; the earlier
revision's handler (`src/unnamed/part_000`) is the one that auto-joins the
creator and broadcasts the chat-filtered list. -/
theorem createRoom_success_effects (db : DB) (mem : Memb) (s name rtype : String)
    (h1 : ¬ name = "") (h2 : ¬ rtype = "") (h3 : getRoomByName db name = none) :
    serverCreateRoom db mem s name rtype =
      (insertRoom db name rtype, mem,
        [⟨Target.one s, Payload.createRoomResponse true (some name) none⟩,
         ⟨Target.allConns, Payload.availableRooms (getRoomsFromDB (insertRoom db name rtype) none)⟩]) ∧
    p0CreateRoom db mem s name =
      (insertRoom db name "chat", mjoin mem s name,
        [⟨Target.one s, Payload.createRoomResponse true (some name) none⟩,
         ⟨Target.allConns, Payload.availableRooms (getRoomsFromDB (insertRoom db name "chat") (some "chat"))⟩]) := by
  have hce := checkRoomExists_false_of_getRoomByName_none db name h3
  constructor
  · simp [serverCreateRoom, h1, h2, h3, createRoomInDB, hce]
  · simp [p0CreateRoom, p0_createRoomInDB, hce]

/-- Witness for `createRoom_success_effects`: chat room `lobby` created on a
store holding only game room `g1`. -/
theorem createRoom_success_effects_witness :
    serverCreateRoom dbG [] "s1" "lobby" "chat" =
      (insertRoom dbG "lobby" "chat", [],
        [⟨Target.one "s1", Payload.createRoomResponse true (some "lobby") none⟩,
         ⟨Target.allConns, Payload.availableRooms (getRoomsFromDB (insertRoom dbG "lobby" "chat") none)⟩]) ∧
    p0CreateRoom dbG [] "s1" "lobby" =
      (insertRoom dbG "lobby" "chat", mjoin [] "s1" "lobby",
        [⟨Target.one "s1", Payload.createRoomResponse true (some "lobby") none⟩,
         ⟨Target.allConns, Payload.availableRooms (getRoomsFromDB (insertRoom dbG "lobby" "chat") (some "chat"))⟩]) :=
  createRoom_success_effects dbG [] "s1" "lobby" "chat" (by decide) (by decide) (by decide)

/-! ## Claim C5 — game room creation effects -/

/-- Claim C5: evaluating the `createGameRoom` handler of `src/server.mjs` at an
empty store.  The companion chat room `arena-chat` is created, the creator
joins both rooms, and the response is a success — but the `availableRooms`
broadcast carries `getRoomsFromDB()` with NO type filter: `["arena",
"arena-chat"]`, which is the list of all rooms, not the updated game-room
list `["arena"]` that the handler's own comments ("Broadcast updated game
rooms to all clients") and the claim call for. -/
theorem createGameRoom_broadcast_unfiltered :
    serverCreateGameRoom db0 [] "s1" "arena" =
      (⟨[⟨"arena", "game"⟩, ⟨"arena-chat", "chat"⟩], [], 0⟩,
       [("s1", "arena"), ("s1", "arena-chat")],
       [⟨Target.one "s1", Payload.createRoomResponse true (some "arena") none⟩,
        ⟨Target.allConns, Payload.availableRooms ["arena", "arena-chat"]⟩]) ∧
    getRoomsFromDB ⟨[⟨"arena", "game"⟩, ⟨"arena-chat", "chat"⟩], [], 0⟩ (some "game") =
      ["arena"] := by
  decide

/-! ## Claim C6 — type isolation of messages -/

/-- Claim C6, counterexample: the `gameMessage` handler of
`src/unnamed/part_000` performs no type check at all; a game-intent message to
chat room `lobby` IS delivered — member `d1` receives it — refuting "never
delivered to any connection". -/
theorem p0_gameMessage_delivered_to_chat_room :
    p0GameMessage dbLobby [("d1", "lobby")] "s1" "lobby" "boom" =
      (dbLobby, [("d1", "lobby")],
        [⟨Target.toRoomExcept "lobby" "s1", Payload.newMessageStr "boom"⟩]) ∧
    recipients [("d1", "lobby")] ["d1", "s1"] (Target.toRoomExcept "lobby" "s1") =
      ["d1"] := by
  decide

/-- Claim C6, amended: in the current server (`src/server.mjs`), a `gameMessage`
event whose target room's stored type is not `game` (in particular a chat
room) leaves the store unchanged (never persisted), produces no emit (never
delivered), and reports no error to the sender.  (The earlier revision
`src/unnamed/part_000` relays such messages regardless of room type, per the
counterexample.) -/
theorem server_type_mismatch_dropped (db : DB) (mem : Memb)
    (s room message sender : String) (r0 : Room)
    (h : (db.rooms.filter (fun r => r.name == room)).head? = some r0)
    (hr : r0.rtype ≠ "game") :
    serverGameMessage db mem s room message sender = (db, mem, []) := by
  unfold serverGameMessage
  rw [h]
  simp [hr]

/-- Witness for `server_type_mismatch_dropped`: a game-intent message to the
chat room `lobby`. -/
theorem server_type_mismatch_dropped_witness :
    serverGameMessage dbLobby [("d1", "lobby")] "s1" "lobby" "boom" "sam" =
      (dbLobby, [("d1", "lobby")], []) :=
  server_type_mismatch_dropped dbLobby [("d1", "lobby")] "s1" "lobby" "boom" "sam"
    ⟨"lobby", "chat"⟩ (by decide) (by decide)

/-! ## Claim C7 — cascade delete -/

/-- Claim C7: after a successful `removeRoom(name)`, no message with that
`room_name` is retrievable (the ordered history query returns `[]`), the
existence check for the room fails, and the store deletions happened in the
order messages-then-room. -/
theorem removeRoom_cascade_delete (db : DB) (name : String) :
    selectMessagesOrdered (serverRemoveRoom db name false false).1 name = [] ∧
    checkRoomExists (serverRemoveRoom db name false false).1 name = false ∧
    (serverRemoveRoom db name false false).2.filterMap
        (fun a => match a with | Act.store op => some op | _ => none) =
      [StoreOp.deleteMessages name, StoreOp.deleteRoom name] := by
  refine ⟨?_, ?_, ?_⟩
  · unfold serverRemoveRoom selectMessagesOrdered deleteRoomFromDB deleteMessagesFromDB
    simp [List.filter_filter]
  · unfold serverRemoveRoom checkRoomExists deleteRoomFromDB deleteMessagesFromDB
    simp [List.filter_filter]
  · rfl

/-! ## Claim C8 — removeRoom on a nonexistent room -/

/-- Claim C8, counterexample: `removeRoom("ghost")` on an empty store — the
room does not exist, yet NO error of any kind is emitted and the success-path
`availableRooms` broadcast still reaches all connections, refuting "a NotFound
error is reported and no success-path effects occur". -/
theorem removeRoom_nonexistent_counterexample :
    checkRoomExists db0 "ghost" = false ∧
    ((serverRemoveRoom db0 "ghost" false false).2.filter
        (fun a => match a with
          | Act.emit e =>
              match e.payload with
              | Payload.room_removed_error _ => true
              | Payload.joinRoomError _ => true
              | _ => false
          | _ => false)) = [] ∧
    Act.emit ⟨Target.allConns, Payload.availableRooms []⟩ ∈
      (serverRemoveRoom db0 "ghost" false false).2 := by
  decide

/-- Claim C8, amended: the `removeRoom` handler never checks that the room
exists; on a nonexistent room it silently runs the whole success path — the
`room_removed` announcement to the (member-less) room, the two no-op
deletions, and the `availableRooms` broadcast of the unchanged room list —
and reports no error of any kind (the handler has no NotFound path at all). -/
theorem removeRoom_nonexistent_silent (db : DB) (name : String)
    (h : checkRoomExists db name = false) :
    (serverRemoveRoom db name false false).1.rooms = db.rooms ∧
    (serverRemoveRoom db name false false).2 =
      [Act.emit ⟨Target.toRoom name,
         Payload.room_removed ("Room \"" ++ name ++ "\" has been removed.")⟩,
       Act.store (StoreOp.deleteMessages name), Act.store (StoreOp.deleteRoom name),
       Act.emit ⟨Target.allConns, Payload.availableRooms (db.rooms.map (fun r => r.name))⟩] := by
  have hr := filter_ne_self_of_not_exists db name h
  constructor
  · simp [serverRemoveRoom, deleteRoomFromDB, deleteMessagesFromDB, hr]
  · simp [serverRemoveRoom, deleteRoomFromDB, deleteMessagesFromDB, getRoomsFromDB, hr]

/-- Witness for `removeRoom_nonexistent_silent` at the empty store. -/
theorem removeRoom_nonexistent_silent_witness :
    (serverRemoveRoom db0 "ghost" false false).1.rooms = db0.rooms ∧
    (serverRemoveRoom db0 "ghost" false false).2 =
      [Act.emit ⟨Target.toRoom "ghost",
         Payload.room_removed ("Room \"" ++ "ghost" ++ "\" has been removed.")⟩,
       Act.store (StoreOp.deleteMessages "ghost"), Act.store (StoreOp.deleteRoom "ghost"),
       Act.emit ⟨Target.allConns, Payload.availableRooms (db0.rooms.map (fun r => r.name))⟩] :=
  removeRoom_nonexistent_silent db0 "ghost" (by decide)

/-! ## Claim C9 — membership idempotence -/

/-- Claim C9, counterexample: connection `c1` is not a member of room `r1`,
yet the `leave-room` handler still broadcasts `user_left` to the room and the
remaining member `d1` receives it — refuting "producing no observable
events". -/
theorem leaveRoom_nonmember_broadcasts :
    isMember [("d1", "r1")] "c1" "r1" = false ∧
    (serverLeaveRoom db0 [("d1", "r1")] "c1" "r1" "carol").2.2 =
      [⟨Target.toRoomExcept "r1" "c1", Payload.user_left "carol has left the room"⟩] ∧
    recipients (serverLeaveRoom db0 [("d1", "r1")] "c1" "r1" "carol").2.1 ["d1", "c1"]
        (Target.toRoomExcept "r1" "c1") = ["d1"] := by
  decide

/-- Claim C9, amended: membership join and leave are idempotent on the
membership relation — `join(c, r)` twice then `leave(c, r)` once leaves `c`
not a member of `r`, and `leave(c, r)` when `c` is not a member leaves the
relation unchanged and reports no error — but the `leave-room` handler still
unconditionally broadcasts `user_left` to the room's remaining members. -/
theorem membership_idempotent (db : DB) (mem : Memb) (c r userName : String)
    (h : isMember mem c r = false) :
    isMember (mleave (mjoin (mjoin mem c r) c r) c r) c r = false ∧
    (serverLeaveRoom db mem c r userName).2.1 = mem ∧
    (serverLeaveRoom db mem c r userName).2.2 =
      [⟨Target.toRoomExcept r c, Payload.user_left (userName ++ " has left the room")⟩] := by
  refine ⟨isMember_mleave_self _ c r, ?_, rfl⟩
  simp [serverLeaveRoom, mleave_of_not_member mem c r h]

/-- Witness for `membership_idempotent`: `c1` leaves room `r1` it never joined,
while `d1` is a member. -/
theorem membership_idempotent_witness :
    isMember (mleave (mjoin (mjoin [("d1", "r1")] "c1" "r1") "c1" "r1") "c1" "r1") "c1" "r1" = false ∧
    (serverLeaveRoom db0 [("d1", "r1")] "c1" "r1" "carol").2.1 = [("d1", "r1")] ∧
    (serverLeaveRoom db0 [("d1", "r1")] "c1" "r1" "carol").2.2 =
      [⟨Target.toRoomExcept "r1" "c1", Payload.user_left ("carol" ++ " has left the room")⟩] :=
  membership_idempotent db0 [("d1", "r1")] "c1" "r1" "carol" (by decide)

/-! ## Claim C10 — announcement precedes deletion -/

/-- Claim C10: in every run of the `removeRoom` handler — whatever store calls
fail — the first action of the trace is the `room_removed` emit to the room,
so it precedes every store deletion; when the first deletion fails, the store
is left exactly as it was (the room and all its messages still exist) while
`room_removed` has already gone out, followed only by `room_removed_error`;
and when the second deletion fails the messages are already gone while the
room row remains — announcement and removal are not atomic, and state is not
rolled back on error. -/
theorem removeRoom_announce_before_delete (db : DB) (name : String) (fm fr : Bool) :
    (serverRemoveRoom db name fm fr).2.head? =
      some (Act.emit ⟨Target.toRoom name,
        Payload.room_removed ("Room \"" ++ name ++ "\" has been removed.")⟩) ∧
    (serverRemoveRoom db name true fr).1 = db ∧
    (serverRemoveRoom db name true fr).2 =
      [Act.emit ⟨Target.toRoom name,
         Payload.room_removed ("Room \"" ++ name ++ "\" has been removed.")⟩,
       Act.emit ⟨Target.toRoom name,
         Payload.room_removed_error "An error occurred while deleting the room."⟩] ∧
    (serverRemoveRoom db name false true).1 = deleteMessagesFromDB db name := by
  cases fm <;> cases fr <;> simp [serverRemoveRoom]
